import Mathlib

/-!
Shallow embedding of the go_backend_bank account service core: the account
entity and request models, the credential hasher, and the Postgres-backed
account store (table `accounts` with a UNIQUE constraint on email and a
SERIAL id column), together with the service facade operations that the
HTTP handlers in main.go expose.  Machine integers of the source (Go int)
are modelled as Int; fallible operations return Except with the error
message the source produces.
-/

namespace GoBank

/-- Modelled from the spec: the Credential Hasher hash operation, realised in
the source by the external bcrypt library function GenerateFromPassword.  The
salt that bcrypt draws at random is passed explicitly; the resulting token is
the standard bcrypt format marker followed by the salt and a digest, the
digest being modelled as an injective pairing of salt and secret. -/
def bcryptGenerateFromPassword (salt password : String) : String :=
  "$2a$10$" ++ salt ++ "$" ++ password

/-- Modelled from the spec: the Credential Hasher verify operation, realised in
the source by the external bcrypt library function CompareHashAndPassword.  It
checks that the stored token carries the bcrypt format marker and that its
digest part matches the candidate secret. -/
def bcryptCompareHashAndPassword (h candidate : String) : Bool :=
  ("$2a$10$".data.isPrefixOf h.data) && (("$" ++ candidate).data.isSuffixOf h.data)

/-- Byte length of a string under UTF-8 encoding; bcrypt rejects secrets whose
encoding exceeds 72 bytes. -/
def utf8Len (s : String) : Nat :=
  s.data.foldl (fun n c => n + c.utf8Size) 0

/-- The account entity (struct account of the source). -/
structure account where
  Email : String
  Password : String
  ID : Int
  Name : String
  Number : String
  Balance : Int
  deriving DecidableEq

/-- CreateAccountRequest: the transient inbound payload that produces an
account. -/
structure CreateAccountRequest where
  Email : String
  Password : String
  Name : String
  Number : String
  Balance : Int
  deriving DecidableEq

/-- LoginRequest: the transient inbound payload for authentication. -/
structure LoginRequest where
  Email : String
  Password : String
  deriving DecidableEq

/-- NewAccount builds a new account instance with a freshly hashed password;
the ID field is left at its zero value for the store to assign.  bcrypt fails
when the password exceeds 72 bytes, and NewAccount propagates that error. -/
def NewAccount (salt : String) (email password name number : String)
    (balance : Int) : Except String account :=
  if utf8Len password > 72 then
    Except.error "bcrypt: password length exceeds 72 bytes"
  else
    Except.ok { Email := email, Password := bcryptGenerateFromPassword salt password,
                ID := 0, Name := name, Number := number, Balance := balance }

/-- The state of the accounts table that PostgresStorage.Init creates: the
rows, plus the SERIAL sequence counter that assigns the next id. -/
structure PostgresStorage where
  accounts : List account
  nextId : Int
  deriving DecidableEq

/-- CreateAccount inserts a new account row.  The UNIQUE constraint on email
rejects a duplicate email; otherwise the row is inserted, the SERIAL column
assigns the id, and RETURNING id writes it back onto the entity. -/
def CreateAccount (s : PostgresStorage) (a : account) :
    Except String (PostgresStorage × account) :=
  if s.accounts.any (fun b => b.Email == a.Email) then
    Except.error "pq: duplicate key value violates unique constraint accounts_email_key"
  else
    let a2 : account := { a with ID := s.nextId }
    Except.ok ({ accounts := s.accounts ++ [a2], nextId := s.nextId + 1 }, a2)

/-- CheckAuth looks up the stored password hash by email (QueryRow yields the
first matching row; Scan fails with sql.ErrNoRows when there is none, and the
source wraps that error text) and then compares hash and candidate. -/
def CheckAuth (s : PostgresStorage) (email password : String) : Except String Unit :=
  match s.accounts.find? (fun b => b.Email == email) with
  | none => Except.error "authentication failed: sql: no rows in result set"
  | some b =>
      if bcryptCompareHashAndPassword b.Password password then Except.ok ()
      else Except.error "authentication failed: incorrect password"

/-- The projection the read queries perform: SELECT id, name, number, balance
scanned into a fresh account value, leaving Email and Password at their zero
values. -/
def projectRow (b : account) : account :=
  { Email := "", Password := "", ID := b.ID, Name := b.Name,
    Number := b.Number, Balance := b.Balance }

/-- GetUsers selects id, name, number and balance of every row and returns the
accumulated slice, which starts empty. -/
def GetUsers (s : PostgresStorage) : Except String (List account) :=
  Except.ok (s.accounts.map projectRow)

/-- DeleteAccount executes DELETE by id, ignoring the affected row count: the
statement succeeds whether or not a row with that id exists. -/
def DeleteAccount (s : PostgresStorage) (id : Int) : Except String PostgresStorage :=
  Except.ok { s with accounts := s.accounts.filter (fun b => b.ID != id) }

/-- UpdateAccount executes UPDATE SET name, number, balance WHERE id,
again ignoring the affected row count. -/
def UpdateAccount (s : PostgresStorage) (a : account) : Except String PostgresStorage :=
  Except.ok { s with accounts := s.accounts.map (fun b =>
    if b.ID == a.ID then { b with Name := a.Name, Number := a.Number, Balance := a.Balance }
    else b) }

/-- GetAccountByID selects id, name, number and balance of the row with the
given id; Scan fails with sql.ErrNoRows when there is none. -/
def GetAccountByID (s : PostgresStorage) (id : Int) : Except String account :=
  match s.accounts.find? (fun b => b.ID == id) with
  | none => Except.error "sql: no rows in result set"
  | some b => Except.ok (projectRow b)

/-- The register operation of the facade (handleCreateAccount up to the
response): build the entity via NewAccount, then persist it via
CreateAccount; either error propagates. -/
def registerAccount (s : PostgresStorage) (salt : String) (r : CreateAccountRequest) :
    Except String (PostgresStorage × account) :=
  match NewAccount salt r.Email r.Password r.Name r.Number r.Balance with
  | Except.error e => Except.error e
  | Except.ok acc => CreateAccount s acc

/-- Modelled from the spec: the token service mint operation (CreateToken is
referenced by main.go but its source file is not present); it mints an opaque
token bound to the identity. -/
def CreateToken (email : String) : Except String String :=
  Except.ok ("token bound to " ++ email)

/-- handleLogin: check the credentials and, on success, mint a token for the
email; on failure, surface the error of CheckAuth. -/
def authenticate (s : PostgresStorage) (lr : LoginRequest) : Except String String :=
  match CheckAuth s lr.Email lr.Password with
  | Except.error e => Except.error e
  | Except.ok _ => CreateToken lr.Email

/-- The value handleCreateAccount hands to writeJSON on success: either the
inbound request echoed back, or the created account entity.  The source
passes one of these two shapes as the `any` argument of writeJSON. -/
inductive CreateResponse where
  | reqEcho (r : CreateAccountRequest)
  | entity (a : account)
  deriving DecidableEq

/-- handleCreateAccount: decode the request, build the entity, persist it, and
on success write the inbound request value back to the caller. -/
def handleCreateAccount (s : PostgresStorage) (salt : String)
    (r : CreateAccountRequest) : Except String (PostgresStorage × CreateResponse) :=
  match NewAccount salt r.Email r.Password r.Name r.Number r.Balance with
  | Except.error e => Except.error e
  | Except.ok acc =>
      match CreateAccount s acc with
      | Except.error e => Except.error e
      | Except.ok (s2, _) => Except.ok (s2, CreateResponse.reqEcho r)

/-- Per-email uniqueness of a store state: no two rows share an email. -/
def emailUnique (s : PostgresStorage) : Prop :=
  s.accounts.Pairwise (fun a b => a.Email ≠ b.Email)

/-- A concrete 22-character salt, the length bcrypt salts have. -/
def salt0 : String := "abcdefghijklmnopqrstuv"

/-- The example request of the spec scenario. -/
def req0 : CreateAccountRequest :=
  { Email := "a@x.com", Password := "secret", Name := "A", Number := "001", Balance := 100 }

/-- The empty store, as it is right after Init on a fresh database. -/
def store0 : PostgresStorage := { accounts := [], nextId := 1 }

/-- The account row the example request produces, with the assigned id 1. -/
def acct1 : account :=
  { Email := "a@x.com", Password := bcryptGenerateFromPassword salt0 "secret",
    ID := 1, Name := "A", Number := "001", Balance := 100 }

/-- The store after registering the example request on the empty store. -/
def store1 : PostgresStorage := { accounts := [acct1], nextId := 2 }

/-- A concrete update entity aimed at id 1; its email and password fields are
deliberately filled with values the update must ignore. -/
def updEntity : account :=
  { Email := "ignored@x.com", Password := "ignored", ID := 1,
    Name := "B", Number := "002", Balance := 42 }

theorem hash_ne_password (salt pw : String) :
    bcryptGenerateFromPassword salt pw ≠ pw := by
  intro h
  have hlen := congrArg (fun s => s.data.length) h
  have h7 : "$2a$10$".data.length = 7 := rfl
  have h1 : "$".data.length = 1 := rfl
  simp only [bcryptGenerateFromPassword, String.data_append, List.length_append,
    h7, h1] at hlen
  omega

theorem compare_hash_self (salt pw : String) :
    bcryptCompareHashAndPassword (bcryptGenerateFromPassword salt pw) pw = true := by
  unfold bcryptCompareHashAndPassword bcryptGenerateFromPassword
  rw [Bool.and_eq_true, List.isPrefixOf_iff_prefix, List.isSuffixOf_iff_suffix]
  constructor
  · exact ⟨salt.data ++ "$".data ++ pw.data, by simp [String.data_append]⟩
  · exact ⟨"$2a$10$".data ++ salt.data, by simp [String.data_append]⟩

/-- C1: for every valid CreateAccountRequest (fresh email, password within the
bcrypt bound) presented to a well-formed store, registerAccount followed by
GetAccountByID on the returned id yields an account whose name, number and
balance equal those of the request, and the password stored for that account
differs from the plaintext password of the request. -/
theorem c1_register_then_fetch (s : PostgresStorage) (salt : String)
    (r : CreateAccountRequest)
    (hfresh : ∀ b ∈ s.accounts, b.Email ≠ r.Email)
    (hids : ∀ b ∈ s.accounts, b.ID ≠ s.nextId)
    (hpw : utf8Len r.Password ≤ 72) :
    ∃ s2 a fetched,
      registerAccount s salt r = Except.ok (s2, a) ∧
      GetAccountByID s2 a.ID = Except.ok fetched ∧
      fetched.Name = r.Name ∧ fetched.Number = r.Number ∧
      fetched.Balance = r.Balance ∧
      ∀ b ∈ s2.accounts, b.ID = a.ID → b.Password ≠ r.Password := by
  have hnotlt : ¬ utf8Len r.Password > 72 := Nat.not_lt.2 hpw
  have hany : s.accounts.any (fun b => b.Email == r.Email) = false := by
    simp only [List.any_eq_false]
    intro b hb
    simp only [beq_iff_eq]
    exact hfresh b hb
  set newA : account :=
    { Email := r.Email, Password := bcryptGenerateFromPassword salt r.Password,
      ID := s.nextId, Name := r.Name, Number := r.Number, Balance := r.Balance } with hnewA
  have hreg : registerAccount s salt r =
      Except.ok ({ accounts := s.accounts ++ [newA], nextId := s.nextId + 1 }, newA) := by
    simp [registerAccount, NewAccount, hnotlt, CreateAccount, hany, hnewA]
  have hfind : (s.accounts ++ [newA]).find? (fun b => b.ID == newA.ID) = some newA := by
    rw [List.find?_append]
    have hnone : s.accounts.find? (fun b => b.ID == newA.ID) = none := by
      rw [List.find?_eq_none]
      intro b hb
      simp only [beq_iff_eq]
      exact hids b hb
    simp [hnone]
  refine ⟨_, newA, projectRow newA, hreg, ?_, rfl, rfl, rfl, ?_⟩
  · simp [GetAccountByID, hfind]
  · intro b hb hbid
    rcases List.mem_append.1 hb with h | h
    · exact absurd hbid (hids b h)
    · rcases List.mem_singleton.1 h with rfl
      exact hash_ne_password salt r.Password

/-- Witness for C1 at the example scenario: the empty store, the concrete
salt and the request of the spec. -/
theorem c1_register_then_fetch_witness :
    ∃ s2 a fetched,
      registerAccount store0 salt0 req0 = Except.ok (s2, a) ∧
      GetAccountByID s2 a.ID = Except.ok fetched ∧
      fetched.Name = req0.Name ∧ fetched.Number = req0.Number ∧
      fetched.Balance = req0.Balance ∧
      ∀ b ∈ s2.accounts, b.ID = a.ID → b.Password ≠ req0.Password :=
  c1_register_then_fetch store0 salt0 req0
    (by intro b hb; simp [store0] at hb)
    (by intro b hb; simp [store0] at hb)
    (by decide)

/-- C2: per-email uniqueness is an invariant of the store.  First, a create
that succeeds preserves the uniqueness invariant; second, when the store
already holds exactly one account with the given email, creating a second
account with that email fails with the duplicate-key error and the store
(unchanged, since the failing create returns no new state) still holds
exactly one account with that email. -/
theorem c2_unique_email (s : PostgresStorage) (a : account) :
    (emailUnique s → ∀ s2 a2, CreateAccount s a = Except.ok (s2, a2) → emailUnique s2) ∧
    ((s.accounts.filter (fun b => b.Email == a.Email)).length = 1 →
      CreateAccount s a =
          Except.error "pq: duplicate key value violates unique constraint accounts_email_key" ∧
        (s.accounts.filter (fun b => b.Email == a.Email)).length = 1) := by
  constructor
  · intro huniq s2 a2 hok
    unfold CreateAccount at hok
    by_cases hany : s.accounts.any (fun b => b.Email == a.Email) = true
    · simp [hany] at hok
    · rw [if_neg hany] at hok
      have hfresh : ∀ b ∈ s.accounts, b.Email ≠ a.Email := by
        intro b hb
        have := (List.any_eq_false).1 (Bool.eq_false_iff.2 hany) b hb
        simpa using this
      cases hok
      unfold emailUnique at huniq ⊢
      rw [List.pairwise_append]
      refine ⟨huniq, List.pairwise_singleton _ _, ?_⟩
      intro x hx y hy
      rcases List.mem_singleton.1 hy with rfl
      exact hfresh x hx
  · intro hone
    have hmem : ∃ b ∈ s.accounts, (fun b => b.Email == a.Email) b = true := by
      rcases List.length_pos.1 (by rw [hone]; exact Nat.one_pos) with hne
      rcases List.exists_mem_of_ne_nil _ hne with ⟨b, hb⟩
      exact ⟨b, (List.mem_filter.1 hb).1, (List.mem_filter.1 hb).2⟩
    have hany : s.accounts.any (fun b => b.Email == a.Email) = true :=
      List.any_eq_true.2 hmem
    exact ⟨by simp [CreateAccount, hany], hone⟩

/-- Witness for C2 at the concrete one-account store: creating a second
account with the already-present email fails with the duplicate-key error. -/
theorem c2_unique_email_witness :
    CreateAccount store1
        { Email := "a@x.com", Password := bcryptGenerateFromPassword salt0 "other",
          ID := 0, Name := "B", Number := "002", Balance := 5 } =
        Except.error "pq: duplicate key value violates unique constraint accounts_email_key" ∧
      (store1.accounts.filter (fun b => b.Email == "a@x.com")).length = 1 :=
  (c2_unique_email store1
    { Email := "a@x.com", Password := bcryptGenerateFromPassword salt0 "other",
      ID := 0, Name := "B", Number := "002", Balance := 5 }).2 (by decide)

/-- Counterexample to C3 at a concrete store holding one account with email
a@x.com: the missing-email failure and the wrong-password failure carry
different messages, and the missing-email message embeds the internal store
error text sql: no rows in result set, so the two outcomes are
distinguishable to the caller and more than authentication failed is
exposed. -/
theorem c3_counterexample :
    CheckAuth store1 "b@x.com" "secret" =
        Except.error "authentication failed: sql: no rows in result set" ∧
      CheckAuth store1 "a@x.com" "wrong" =
        Except.error "authentication failed: incorrect password" ∧
      ("authentication failed: sql: no rows in result set" ≠
        "authentication failed: incorrect password") ∧
      ("authentication failed: sql: no rows in result set" ≠ "authentication failed") := by
  refine ⟨by rfl, by rfl, by decide, by decide⟩

/-- C3 amended: a missing email and a wrong password both fail (the same
Except.error shape, each message starting with authentication failed), but
the two messages differ — the missing-email case embeds the store error text
sql: no rows in result set — so the two failure outcomes are distinguishable
to the caller. -/
theorem c3_auth_failure_messages (s : PostgresStorage)
    (e1 pw1 e2 pw2 : String) (b : account)
    (h1 : s.accounts.find? (fun x => x.Email == e1) = none)
    (h2 : s.accounts.find? (fun x => x.Email == e2) = some b)
    (h3 : bcryptCompareHashAndPassword b.Password pw2 = false) :
    CheckAuth s e1 pw1 =
        Except.error "authentication failed: sql: no rows in result set" ∧
      CheckAuth s e2 pw2 =
        Except.error "authentication failed: incorrect password" ∧
      ("authentication failed".data.isPrefixOf
        "authentication failed: sql: no rows in result set".data = true) ∧
      ("authentication failed".data.isPrefixOf
        "authentication failed: incorrect password".data = true) ∧
      ("authentication failed: sql: no rows in result set" ≠
        "authentication failed: incorrect password") := by
  refine ⟨?_, ?_, by decide, by decide, by decide⟩
  · simp [CheckAuth, h1]
  · simp [CheckAuth, h2, h3]

/-- Witness for C3 amended at the concrete one-account store. -/
theorem c3_auth_failure_messages_witness :
    CheckAuth store1 "b@x.com" "pw" =
        Except.error "authentication failed: sql: no rows in result set" ∧
      CheckAuth store1 "a@x.com" "wrong" =
        Except.error "authentication failed: incorrect password" ∧
      ("authentication failed".data.isPrefixOf
        "authentication failed: sql: no rows in result set".data = true) ∧
      ("authentication failed".data.isPrefixOf
        "authentication failed: incorrect password".data = true) ∧
      ("authentication failed: sql: no rows in result set" ≠
        "authentication failed: incorrect password") :=
  c3_auth_failure_messages store1 "b@x.com" "pw" "a@x.com" "wrong" acct1
    (by decide) (by decide) (by decide)

/-- C4: registering a valid request and then checking credentials with the
same email and the original plaintext password succeeds, and handleLogin
then mints a token bound to that email: hashing at registration and
verification at login round-trip. -/
theorem c4_register_then_authenticate (s : PostgresStorage) (salt : String)
    (r : CreateAccountRequest)
    (hfresh : ∀ b ∈ s.accounts, b.Email ≠ r.Email)
    (hpw : utf8Len r.Password ≤ 72) :
    ∃ s2 a, registerAccount s salt r = Except.ok (s2, a) ∧
      CheckAuth s2 r.Email r.Password = Except.ok () ∧
      authenticate s2 { Email := r.Email, Password := r.Password } =
        Except.ok ("token bound to " ++ r.Email) := by
  have hnotlt : ¬ utf8Len r.Password > 72 := Nat.not_lt.2 hpw
  have hany : s.accounts.any (fun b => b.Email == r.Email) = false := by
    simp only [List.any_eq_false]
    intro b hb
    simp only [beq_iff_eq]
    exact hfresh b hb
  set newA : account :=
    { Email := r.Email, Password := bcryptGenerateFromPassword salt r.Password,
      ID := s.nextId, Name := r.Name, Number := r.Number, Balance := r.Balance } with hnewA
  have hreg : registerAccount s salt r =
      Except.ok ({ accounts := s.accounts ++ [newA], nextId := s.nextId + 1 }, newA) := by
    simp [registerAccount, NewAccount, hnotlt, CreateAccount, hany, hnewA]
  have hfind : (s.accounts ++ [newA]).find? (fun b => b.Email == r.Email) = some newA := by
    rw [List.find?_append]
    have hnone : s.accounts.find? (fun b => b.Email == r.Email) = none := by
      rw [List.find?_eq_none]
      intro b hb
      simp only [beq_iff_eq]
      exact hfresh b hb
    simp [hnone]
  have hauth : CheckAuth { accounts := s.accounts ++ [newA], nextId := s.nextId + 1 }
      r.Email r.Password = Except.ok () := by
    simp [CheckAuth, hfind, compare_hash_self salt r.Password]
  exact ⟨_, newA, hreg, hauth, by simp [authenticate, hauth, CreateToken]⟩

/-- Witness for C4 at the example scenario. -/
theorem c4_register_then_authenticate_witness :
    ∃ s2 a, registerAccount store0 salt0 req0 = Except.ok (s2, a) ∧
      CheckAuth s2 req0.Email req0.Password = Except.ok () ∧
      authenticate s2 { Email := req0.Email, Password := req0.Password } =
        Except.ok ("token bound to " ++ req0.Email) :=
  c4_register_then_authenticate store0 salt0 req0
    (by intro b hb; simp [store0] at hb) (by decide)

/-- Counterexample to C5: deleting id 7, which is present in no store, from
the empty store returns success (the unchanged store), not an error: the
DELETE statement ignores the affected row count, so no NotFound is ever
signalled. -/
theorem c5_counterexample :
    DeleteAccount store0 7 = Except.ok store0 ∧
      ¬ ∃ e, DeleteAccount store0 7 = Except.error e := by
  constructor
  · rfl
  · rintro ⟨e, he⟩
    simp [DeleteAccount] at he

/-- C5 amended: deleteAccount on an ID that is absent from the store succeeds
and leaves the store unchanged; the operation never reports NotFound. -/
theorem c5_delete_absent_succeeds (s : PostgresStorage) (id : Int)
    (h : ∀ b ∈ s.accounts, b.ID ≠ id) :
    DeleteAccount s id = Except.ok s := by
  have hf : s.accounts.filter (fun b => b.ID != id) = s.accounts := by
    rw [List.filter_eq_self]
    intro b hb
    simpa using h b hb
  simp [DeleteAccount, hf]

/-- Witness for C5 amended at the empty store. -/
theorem c5_delete_absent_succeeds_witness :
    DeleteAccount store0 9 = Except.ok store0 :=
  c5_delete_absent_succeeds store0 9 (by intro b hb; simp [store0] at hb)

/-- C6: deleting an ID present in the store succeeds, and a subsequent fetch
of that ID fails with the no-rows error: deletion removes the account. -/
theorem c6_delete_then_fetch (s : PostgresStorage) (id : Int)
    (_hpresent : ∃ b ∈ s.accounts, b.ID = id) :
    ∃ s2, DeleteAccount s id = Except.ok s2 ∧
      GetAccountByID s2 id = Except.error "sql: no rows in result set" := by
  refine ⟨_, rfl, ?_⟩
  have hnone : (s.accounts.filter (fun b => b.ID != id)).find?
      (fun b => b.ID == id) = none := by
    rw [List.find?_eq_none]
    intro x hx
    have hne := (List.mem_filter.1 hx).2
    simp only [bne_iff_ne, ne_eq] at hne
    simpa using hne
  simp [GetAccountByID, hnone]

/-- Witness for C6 at the concrete one-account store and its single id 1. -/
theorem c6_delete_then_fetch_witness :
    ∃ s2, DeleteAccount store1 1 = Except.ok s2 ∧
      GetAccountByID s2 1 = Except.error "sql: no rows in result set" :=
  c6_delete_then_fetch store1 1 ⟨acct1, by simp [store1], rfl⟩

/-- C7: updateAccount succeeds and only rewrites the name, number and balance
of rows whose id matches the entity; the email and password of every row are
unchanged, rows with a different id are entirely unchanged, and the row with
the matching id keeps its id, email and password while taking the entity's
name, number and balance. -/
theorem c7_update_frame (s : PostgresStorage) (a : account) :
    ∃ s2, UpdateAccount s a = Except.ok s2 ∧
      s2.accounts.length = s.accounts.length ∧
      (∀ i : Nat, (s2.accounts[i]?).map account.Email =
        (s.accounts[i]?).map account.Email) ∧
      (∀ i : Nat, (s2.accounts[i]?).map account.Password =
        (s.accounts[i]?).map account.Password) ∧
      (∀ i : Nat, ∀ b b2, s.accounts[i]? = some b → s2.accounts[i]? = some b2 →
        (b.ID ≠ a.ID → b2 = b) ∧
        (b.ID = a.ID → b2.ID = b.ID ∧ b2.Email = b.Email ∧
          b2.Password = b.Password ∧ b2.Name = a.Name ∧
          b2.Number = a.Number ∧ b2.Balance = a.Balance)) := by
  refine ⟨_, rfl, by simp [UpdateAccount], ?_, ?_, ?_⟩
  · intro i
    simp only [UpdateAccount, List.getElem?_map]
    cases h : s.accounts[i]? with
    | none => rfl
    | some b =>
        simp only [Option.map_some', Option.some.injEq]
        split <;> rfl
  · intro i
    simp only [UpdateAccount, List.getElem?_map]
    cases h : s.accounts[i]? with
    | none => rfl
    | some b =>
        simp only [Option.map_some', Option.some.injEq]
        split <;> rfl
  · intro i b b2 hb hb2
    simp only [UpdateAccount, List.getElem?_map, hb, Option.map_some'] at hb2
    have hb2' : b2 = if b.ID == a.ID then
        { b with Name := a.Name, Number := a.Number, Balance := a.Balance }
      else b := (Option.some.inj hb2).symm
    constructor
    · intro hne
      have hc : (b.ID == a.ID) = false := by simpa using hne
      rw [hb2', hc]
      simp
    · intro heq
      have hc : (b.ID == a.ID) = true := by simpa using heq
      rw [hb2', hc]
      simp

/-- Witness for C7 at the concrete one-account store, updating id 1. -/
theorem c7_update_frame_witness :
    ∃ s2, UpdateAccount store1 updEntity = Except.ok s2 ∧
      s2.accounts.length = store1.accounts.length ∧
      (∀ i : Nat, (s2.accounts[i]?).map account.Email =
        (store1.accounts[i]?).map account.Email) ∧
      (∀ i : Nat, (s2.accounts[i]?).map account.Password =
        (store1.accounts[i]?).map account.Password) ∧
      (∀ i : Nat, ∀ b b2, store1.accounts[i]? = some b → s2.accounts[i]? = some b2 →
        (b.ID ≠ updEntity.ID → b2 = b) ∧
        (b.ID = updEntity.ID → b2.ID = b.ID ∧ b2.Email = b.Email ∧
          b2.Password = b.Password ∧ b2.Name = updEntity.Name ∧
          b2.Number = updEntity.Number ∧ b2.Balance = updEntity.Balance)) :=
  c7_update_frame store1 updEntity

/-- Counterexample to C8 at the example scenario: on success the handler
writes back the inbound CreateAccountRequest, not the created account entity;
in particular the response is not the stored entity acct1 that carries the
assigned id. -/
theorem c8_counterexample :
    handleCreateAccount store0 salt0 req0 =
        Except.ok (store1, CreateResponse.reqEcho req0) ∧
      CreateResponse.reqEcho req0 ≠ CreateResponse.entity acct1 :=
  ⟨by rfl, by decide⟩

/-- C8 amended: on success handleCreateAccount returns the original
CreateAccountRequest echoed back (so the response carries no assigned id);
the created entity, with the store-assigned id and the request's email, name,
number and balance, exists in the store but is not what is returned. -/
theorem c8_create_echoes_request (s : PostgresStorage) (salt : String)
    (r : CreateAccountRequest)
    (hfresh : ∀ b ∈ s.accounts, b.Email ≠ r.Email)
    (hpw : utf8Len r.Password ≤ 72) :
    ∃ s2, handleCreateAccount s salt r = Except.ok (s2, CreateResponse.reqEcho r) ∧
      ∃ a ∈ s2.accounts, a.ID = s.nextId ∧ a.Email = r.Email ∧
        a.Name = r.Name ∧ a.Number = r.Number ∧ a.Balance = r.Balance := by
  have hnotlt : ¬ utf8Len r.Password > 72 := Nat.not_lt.2 hpw
  have hany : s.accounts.any (fun b => b.Email == r.Email) = false := by
    simp only [List.any_eq_false]
    intro b hb
    simp only [beq_iff_eq]
    exact hfresh b hb
  set newA : account :=
    { Email := r.Email, Password := bcryptGenerateFromPassword salt r.Password,
      ID := s.nextId, Name := r.Name, Number := r.Number, Balance := r.Balance } with hnewA
  refine ⟨{ accounts := s.accounts ++ [newA], nextId := s.nextId + 1 }, ?_, ?_⟩
  · simp [handleCreateAccount, NewAccount, hnotlt, CreateAccount, hany, hnewA]
  · exact ⟨newA, by simp, rfl, rfl, rfl, rfl, rfl⟩

/-- Witness for C8 amended at the example scenario. -/
theorem c8_create_echoes_request_witness :
    ∃ s2, handleCreateAccount store0 salt0 req0 =
        Except.ok (s2, CreateResponse.reqEcho req0) ∧
      ∃ a ∈ s2.accounts, a.ID = store0.nextId ∧ a.Email = req0.Email ∧
        a.Name = req0.Name ∧ a.Number = req0.Number ∧ a.Balance = req0.Balance :=
  c8_create_echoes_request store0 salt0 req0
    (by intro b hb; simp [store0] at hb) (by decide)

/-- C9: on a store that contains no accounts, GetUsers returns the empty
list, not an error. -/
theorem c9_list_empty_store (s : PostgresStorage) (h : s.accounts = []) :
    GetUsers s = Except.ok [] := by
  simp [GetUsers, h]

/-- Witness for C9 at the empty store. -/
theorem c9_list_empty_store_witness : GetUsers store0 = Except.ok [] :=
  c9_list_empty_store store0 rfl

/-- C10: every account a read query returns has empty email and password
(the queries project only id, name, number and balance): a successful
GetAccountByID returns a value whose email and password are the zero value
and whose other four fields come from the stored row with that id, and every
element of a GetUsers result has empty email and password. -/
theorem c10_reads_blank_credentials (s : PostgresStorage) (id : Int) :
    (∀ a, GetAccountByID s id = Except.ok a →
      a.Email = "" ∧ a.Password = "" ∧
      ∃ b ∈ s.accounts, b.ID = id ∧ a.ID = b.ID ∧ a.Name = b.Name ∧
        a.Number = b.Number ∧ a.Balance = b.Balance) ∧
    (∀ l, GetUsers s = Except.ok l → ∀ a ∈ l, a.Email = "" ∧ a.Password = "") := by
  constructor
  · intro a ha
    unfold GetAccountByID at ha
    cases hf : s.accounts.find? (fun b => b.ID == id) with
    | none => rw [hf] at ha; cases ha
    | some b =>
        rw [hf] at ha
        have hpred : (b.ID == id) = true := by simpa using List.find?_some hf
        have hmem : b ∈ s.accounts := List.mem_of_find?_eq_some hf
        cases ha
        exact ⟨rfl, rfl, b, hmem, by simpa using hpred, rfl, rfl, rfl, rfl⟩
  · intro l hl a hal
    unfold GetUsers at hl
    cases hl
    rcases List.mem_map.1 hal with ⟨b, hb, rfl⟩
    exact ⟨rfl, rfl⟩

/-- Witness for C10 at the concrete one-account store: fetching id 1 yields
the projection of the stored row, with blank email and password. -/
theorem c10_reads_blank_credentials_witness :
    (projectRow acct1).Email = "" ∧ (projectRow acct1).Password = "" ∧
      ∃ b ∈ store1.accounts, b.ID = 1 ∧ (projectRow acct1).ID = b.ID ∧
        (projectRow acct1).Name = b.Name ∧ (projectRow acct1).Number = b.Number ∧
        (projectRow acct1).Balance = b.Balance :=
  (c10_reads_blank_credentials store1 1).1 (projectRow acct1) rfl

end GoBank
